import Mathlib

/-!
# Verification of the Aero-Coffe coordinate / detection pipeline

Shallow embedding of the coordinate-conversion, GPS-fix-acquisition and
detection-aggregation code of the Aero-Coffe repository
(`src/aero_coffe/take_images.py` and `src/aero_coffe/main.py`).

Modelling conventions:
* Python floats are modelled as exact rationals (`ℚ`); all the numeric
  claims are tolerance claims that hold a fortiori in exact arithmetic.
* Python `float(str)` / `int(str)` are modelled by decimal parsers
  (`parseDecimal` / `parseInt`) returning `Option`; `none` models the
  `ValueError` raised on unparsable input (leading/trailing whitespace,
  exponents and special values such as `inf` are not modelled — the
  NMEA / EXIF inputs the program handles never contain them).
* Python `x // 100` on non-negative floats is `⌊x / 100⌋` and `x % 100`
  is `x - 100 * ⌊x / 100⌋`, which matches Python's floored semantics for
  every sign of `x`.
* The serial device is modelled as the list of lines successive
  `readline()` calls return; an exhausted list yields `""` (a timed-out
  `readline` returns an empty line).
-/

/- Batteries marks the arithmetic on `ℚ` irreducible, which blocks `decide`
from evaluating concrete rational computations; restore the default
reducibility so concrete instances of the definitions below evaluate. -/
attribute [local semireducible] Rat.add Rat.mul Rat.inv Rat.sub Rat.ofScientific

/-- Value of a decimal digit character; `none` on a non-digit. -/
def digitsVal : List Char → Nat → Option Nat
  | [], acc => some acc
  | c :: rest, acc =>
    if c.isDigit then digitsVal rest (acc * 10 + (c.toNat - 48)) else none

/-- Parse a non-empty all-digit character list as a natural number. -/
def digitsToNat (l : List Char) : Option Nat :=
  if l.isEmpty then none else digitsVal l 0

/-- Embedding of Python `int(s)` restricted to decimal integer literals. -/
def parseInt (s : String) : Option Int :=
  match s.toList with
  | '-' :: rest => (digitsToNat rest).map fun n => -(n : Int)
  | '+' :: rest => (digitsToNat rest).map fun n => (n : Int)
  | l => (digitsToNat l).map fun n => (n : Int)

/-- Unsigned part of a decimal literal: digits, optionally one dot and
fraction digits; digits required on at least one side of the dot. -/
def decimalCore (l : List Char) : Option ℚ :=
  let ip := l.takeWhile (fun c => c ≠ '.')
  match l.dropWhile (fun c => c ≠ '.') with
  | [] => (digitsToNat ip).map fun n => (n : ℚ)
  | _ :: frac =>
    if ip.isEmpty && frac.isEmpty then none
    else
      match (if ip.isEmpty then some 0 else digitsToNat ip),
            (if frac.isEmpty then some 0 else digitsToNat frac) with
      | some i, some f => some ((i : ℚ) + (f : ℚ) / (10 : ℚ) ^ frac.length)
      | _, _ => none

/-- Embedding of Python `float(s)` restricted to decimal literals. -/
def parseDecimal (s : String) : Option ℚ :=
  match s.toList with
  | '-' :: rest => (decimalCore rest).map Neg.neg
  | '+' :: rest => decimalCore rest
  | l => decimalCore l

/-- Embedding of `parse_nmea_coordinate` (take_images.py lines 8–32).
`none` models both the `return None` on an empty string and the
`ValueError` that `float()` raises on an unparsable one (the only caller
catches that error and treats the line as yielding no coordinate). -/
def parse_nmea_coordinate (coord_str direction : String) : Option ℚ :=
  if coord_str = "" then none
  else (parseDecimal coord_str).map fun coord_float =>
    -- len(coord_str.split('.')[0]) == 4 distinguishes the two layouts,
    -- but both branches compute the same expressions, as in the source.
    let intLen := (coord_str.toList.takeWhile (fun c => c ≠ '.')).length
    let dm : ℤ × ℚ :=
      if intLen = 4 then
        (⌊coord_float / 100⌋, coord_float - 100 * ⌊coord_float / 100⌋)
      else
        (⌊coord_float / 100⌋, coord_float - 100 * ⌊coord_float / 100⌋)
    let decimal_degrees : ℚ := (dm.1 : ℚ) + dm.2 / 60
    if direction = "S" ∨ direction = "W" then -decimal_degrees
    else decimal_degrees

/-- Branch-free refinement of `parse_nmea_coordinate`: the degree-width
sniffing removed, degrees/minutes computed once.  Used to state that the
digit-count branch has no effect on the result. -/
def parse_nmea_coordinate_uniform (coord_str direction : String) : Option ℚ :=
  if coord_str = "" then none
  else (parseDecimal coord_str).map fun coord_float =>
    let degrees : ℤ := ⌊coord_float / 100⌋
    let minutes : ℚ := coord_float - 100 * ⌊coord_float / 100⌋
    let decimal_degrees : ℚ := (degrees : ℚ) + minutes / 60
    if direction = "S" ∨ direction = "W" then -decimal_degrees
    else decimal_degrees

/-- Embedding of the DMS-to-decimal conversion shared by
`read_existing_gps_from_image` (take_images.py lines 96–112) and
`GPSDetectionHeatmap.read_gps_from_image` (main.py lines 33–49):
`float(vals[0]) + float(vals[1])/60 + float(vals[2])/3600` for each axis,
the latitude negated when its reference is `S`, the longitude negated when
its reference is `W`. -/
def read_existing_gps_from_image_convert
    (lat_vals lon_vals : ℚ × ℚ × ℚ) (lat_ref lon_ref : String) : ℚ × ℚ :=
  let lat := lat_vals.1 + lat_vals.2.1 / 60 + lat_vals.2.2 / 3600
  let lon := lon_vals.1 + lon_vals.2.1 / 60 + lon_vals.2.2 / 3600
  let lat := if lat_ref = "S" then -lat else lat
  let lon := if lon_ref = "W" then -lon else lon
  (lat, lon)

/-- Embedding of `to_dms` (take_images.py lines 119–129).  The Python
`int()` truncations apply to non-negative values here, so they are floors. -/
def to_dms (degree : ℚ) : (ℤ × ℤ) × (ℤ × ℤ) × (ℤ × ℤ) :=
  let degree := |degree|
  let d : ℤ := ⌊degree⌋
  let m : ℤ := ⌊(degree - (d : ℚ)) * 60⌋
  let s : ℚ := ((degree - (d : ℚ)) * 60 - (m : ℚ)) * 60
  ((d, 1), (m, 1), (⌊s * 1000⌋, 1000))

/-- Value of an EXIF rational (numerator, denominator) pair. -/
def ratio_to_rat (r : ℤ × ℤ) : ℚ := (r.1 : ℚ) / (r.2 : ℚ)

/-- The EXIF read-back formula of `read_existing_gps_from_image`
(take_images.py lines 104–105) on a rational DMS triple:
`vals[0] + vals[1]/60 + vals[2]/3600`. -/
def dms_rationals_to_decimal (t : (ℤ × ℤ) × (ℤ × ℤ) × (ℤ × ℤ)) : ℚ :=
  ratio_to_rat t.1 + ratio_to_rat t.2.1 / 60 + ratio_to_rat t.2.2 / 3600

/-- Result of inspecting one line inside the `read_gps` polling loop
(take_images.py lines 46–73):
* `fix` — the line passed every check and `read_gps` returns its coordinate;
* `noop` — the line yields nothing and the loop advances to the next attempt
  (unrecognized line, missing/empty/zero fix-quality field, empty coordinate
  or direction field, or a coordinate `float()` failure caught by the inner
  `try`);
* `crash` — the bare `int(parts[6])` on line 53 raises `ValueError` outside
  the inner `try`, so the exception escapes the loop to the outer
  `except Exception` handler (lines 82–84) and the acquisition terminates. -/
inductive StepResult where
  | fix (lat lon : ℚ)
  | noop
  | crash
deriving DecidableEq

/-- `max_attempts = 50` (take_images.py line 44). -/
def max_attempts : ℕ := 50

/-- Structural embedding of Python `str.split(',')`: split a character
list at every comma, keeping empty segments (`"".split(',') == [""]`). -/
def splitComma : List Char → List (List Char)
  | [] => [[]]
  | c :: rest =>
    let r := splitComma rest
    if c = ',' then [] :: r
    else (c :: r.headD []) :: r.tail

/-- `line.startswith('$GPGGA') or line.startswith('$GNGGA')`
(take_images.py line 49). -/
def gga_line (line : String) : Bool :=
  "$GPGGA".toList.isPrefixOf line.toList || "$GNGGA".toList.isPrefixOf line.toList

/-- One iteration body of the `read_gps` polling loop on an already-read
line (take_images.py lines 49–70). -/
def read_gps_line (line : String) : StepResult :=
  if gga_line line then
    let parts := (splitComma line.toList).map String.mk
    if 7 ≤ parts.length ∧ parts.getD 6 "" ≠ "" then
      match parseInt (parts.getD 6 "") with
      | none => .crash
      | some q =>
        if 0 < q then
          let lat_str := parts.getD 2 ""
          let lat_dir := parts.getD 3 ""
          let lon_str := parts.getD 4 ""
          let lon_dir := parts.getD 5 ""
          if lat_str ≠ "" ∧ lon_str ≠ "" ∧ lat_dir ≠ "" ∧ lon_dir ≠ "" then
            match parse_nmea_coordinate lat_str lat_dir,
                  parse_nmea_coordinate lon_str lon_dir with
            | some lat, some lon => .fix lat lon
            | _, _ => .noop
          else .noop
        else .noop
    else .noop
  else .noop

/-- Terminal transitions of the fix acquisition. -/
inductive GpsOutcome where
  | fixed (lat lon : ℚ)
  | timedOut
  | crashed
deriving DecidableEq

/-- Outcome of `read_gps` together with whether `ser.close()` ran before
the function returned. -/
structure GpsResult where
  outcome : GpsOutcome
  serial_closed : Bool
deriving DecidableEq

/-- The `while attempts < max_attempts` loop of `read_gps`
(take_images.py lines 46–77), on the list of lines successive `readline()`
calls produce (an exhausted list keeps yielding `""`).  On a fix the port
is closed (line 66); on timeout the port is closed (line 75); a `crash`
returns through the outer handler, which closes nothing. -/
def read_gps_loop : List String → ℕ → GpsResult
  | _, 0 => ⟨.timedOut, true⟩
  | lines, n + 1 =>
    match read_gps_line (lines.headD "") with
    | .fix lat lon => ⟨.fixed lat lon, true⟩
    | .crash => ⟨.crashed, false⟩
    | .noop => read_gps_loop lines.tail n

/-- Embedding of `read_gps` (take_images.py lines 34–84) after the serial
port opened successfully; the `serial.SerialException` branch (open
failure) precedes any acquisition and has no port to close. -/
def read_gps (lines : List String) : GpsResult := read_gps_loop lines max_attempts

/-- The fields of `read_gps_line`'s sentence, as the source names them. -/
def gga_parts (line : String) : List String :=
  (splitComma line.toList).map String.mk

/-- A per-image detection outcome as `process_single_image` builds it
(main.py lines 85–92). -/
structure DetectionRecord where
  image_path : String
  latitude : ℚ
  longitude : ℚ
  total_detections : ℕ
  detection_counts : List (String × ℕ)
  timestamp : String
deriving DecidableEq

/-- `detection_counts[class_name] = detection_counts.get(class_name, 0) + 1`
on an insertion-ordered mapping (main.py line 83). -/
def incr_count : List (String × ℕ) → String → List (String × ℕ)
  | [], key => [(key, 1)]
  | (k, v) :: rest, key =>
    if k = key then (k, v + 1) :: rest else (k, v) :: incr_count rest key

/-- The class label one detection is tallied under (main.py line 82):
`results.predictions[0].class_name` when that attribute exists, otherwise
the synthetic `class_<id>` label. -/
def detection_class_name (head_class_name : Option String) (class_id : ℕ) : String :=
  match head_class_name with
  | some n => n
  | none => "class_" ++ toString class_id

/-- The per-class tally loop of `process_single_image`
(main.py lines 79–83). -/
def tally_detections (class_ids : List ℕ) (head_class_name : Option String) :
    List (String × ℕ) :=
  class_ids.foldl
    (fun counts class_id => incr_count counts (detection_class_name head_class_name class_id)) []

/-- Embedding of `GPSDetectionHeatmap.process_single_image`
(main.py lines 55–99).  The inference collaborator is an input:
`class_ids` is `detections.class_id` (one entry per detection, so
`len(detections) = class_ids.length`) and `head_class_name` is
`results.predictions[0].class_name` when that attribute exists.  `none`
models every `return None` path (no GPS, unreadable image).  The outer
`except` path (e.g. `predictions[0]` raising on an empty prediction list)
also returns `None` and so produces no record. -/
def process_single_image (image_path : String) (gps_coords : Option (ℚ × ℚ))
    (image_loaded : Bool) (class_ids : List ℕ) (head_class_name : Option String)
    (timestamp : String) : Option DetectionRecord :=
  match gps_coords with
  | none => none
  | some (lat, lon) =>
    if image_loaded = false then none
    else
      some
        { image_path := image_path
          latitude := lat
          longitude := lon
          total_detections := class_ids.length
          detection_counts :=
            if 0 < class_ids.length then tally_detections class_ids head_class_name
            else []
          timestamp := timestamp }

/-- Embedding of `GPSDetectionHeatmap.create_basic_heatmap`
(main.py lines 122–169), reduced to the data it computes: the map center
and the weighted heat points `[lat, lon, max(1, total_detections)]`
(lines 140–144); `none` models the early return on empty data. -/
def create_basic_heatmap (records : List DetectionRecord) :
    Option ((ℚ × ℚ) × List (ℚ × ℚ × ℕ)) :=
  if records = [] then none
  else
    let lats := records.map (·.latitude)
    let lons := records.map (·.longitude)
    let center_lat := lats.sum / (lats.length : ℚ)
    let center_lon := lons.sum / (lons.length : ℚ)
    let heat_data := records.map fun item =>
      (item.latitude, item.longitude, max 1 item.total_detections)
    some ((center_lat, center_lon), heat_data)

/-- Python `dict.get(key, 0)` on the insertion-ordered tally. -/
def dict_get : List (String × ℕ) → String → ℕ
  | [], _ => 0
  | (k, v) :: rest, key => if k = key then v else dict_get rest key

/-- Python truthiness of the optional `target_class` argument:
`None` and `""` are falsy. -/
def str_truthy : Option String → Bool
  | none => false
  | some s => s != ""

/-- The per-record intensity of `create_class_specific_heatmap`
(main.py lines 191–194). -/
def class_intensity (target_class : Option String) (item : DetectionRecord) : ℕ :=
  if str_truthy target_class then dict_get item.detection_counts (target_class.getD "")
  else item.total_detections

/-- Embedding of `GPSDetectionHeatmap.create_class_specific_heatmap`
(main.py lines 171–225), reduced to the data it computes: the map center
and the filtered weighted points (lines 189–197, records kept only when
their intensity is `> 0`). -/
def create_class_specific_heatmap (records : List DetectionRecord)
    (target_class : Option String) : Option ((ℚ × ℚ) × List (ℚ × ℚ × ℕ)) :=
  if records = [] then none
  else
    let lats := records.map (·.latitude)
    let lons := records.map (·.longitude)
    let center_lat := lats.sum / (lats.length : ℚ)
    let center_lon := lons.sum / (lons.length : ℚ)
    let heat_data := records.filterMap fun item =>
      let intensity := class_intensity target_class item
      if 0 < intensity then some (item.latitude, item.longitude, intensity) else none
    some ((center_lat, center_lon), heat_data)

/-- A single concrete record used by the C6 witness: two detections of
class `"a"`. -/
def c6rec : DetectionRecord := ⟨"i", 1, 2, 2, [("a", 2)], "ts"⟩

/-!  Theorems. -/

lemma to_dms_eq (x : ℚ) :
    to_dms x =
      ((⌊|x|⌋, 1), (⌊(|x| - (⌊|x|⌋ : ℚ)) * 60⌋, 1),
        (⌊((|x| - (⌊|x|⌋ : ℚ)) * 60 - (⌊(|x| - (⌊|x|⌋ : ℚ)) * 60⌋ : ℚ)) * 60 * 1000⌋,
          1000)) := rfl

example : parseDecimal "4807.038" = some (4807038 / 1000) := by decide
example : parse_nmea_coordinate "" "N" = none := by decide
example : read_gps_line "$GPGGA,x,4807.038,N,01131.000,E,0" = .noop := by decide
example : read_gps_line "hello" = .noop := by decide
example : read_gps [] = ⟨.timedOut, true⟩ := by decide

/-- C4: `parse_nmea_coordinate "4807.038" 'N'` is `48.1173` (exactly, in
rational arithmetic) and `parse_nmea_coordinate "01131.000" 'E'` is
`11.5167` within rounding tolerance (`1/10000`). -/
theorem C4_nmea_parse_examples :
    parse_nmea_coordinate "4807.038" "N" = some (481173 / 10000) ∧
    ∃ q, parse_nmea_coordinate "01131.000" "E" = some q ∧
      |q - 115167 / 10000| ≤ 1 / 10000 := by
  refine ⟨by decide, 691 / 60, by decide, by norm_num [abs_le]⟩

lemma read_gps_loop_succ (lines : List String) (n : ℕ) :
    read_gps_loop lines (n + 1) =
      match read_gps_line (lines.headD "") with
      | .fix lat lon => ⟨.fixed lat lon, true⟩
      | .crash => ⟨.crashed, false⟩
      | .noop => read_gps_loop lines.tail n := rfl

lemma read_gps_line_eq_fix {line : String} {k : ℤ} {lat lon : ℚ}
    (hgga : gga_line line = true)
    (h7 : 7 ≤ (gga_parts line).length)
    (hqi : parseInt ((gga_parts line).getD 6 "") = some k)
    (hq6 : (gga_parts line).getD 6 "" ≠ "")
    (hk : 0 < k)
    (hne : (gga_parts line).getD 2 "" ≠ "" ∧ (gga_parts line).getD 4 "" ≠ "" ∧
      (gga_parts line).getD 3 "" ≠ "" ∧ (gga_parts line).getD 5 "" ≠ "")
    (hlat : parse_nmea_coordinate ((gga_parts line).getD 2 "")
      ((gga_parts line).getD 3 "") = some lat)
    (hlon : parse_nmea_coordinate ((gga_parts line).getD 4 "")
      ((gga_parts line).getD 5 "") = some lon) :
    read_gps_line line = .fix lat lon := by
  obtain ⟨h2, h4, h3, h5⟩ := hne
  unfold read_gps_line
  rw [hgga, if_pos rfl]
  rw [show (splitComma line.toList).map String.mk = gga_parts line from rfl]
  rw [if_pos ⟨h7, hq6⟩, hqi]
  split
  next heq => exact Option.noConfusion heq
  next q heq =>
    obtain rfl : q = k := by injection heq; omega
    rw [if_pos hk, if_pos ⟨h2, h4, h3, h5⟩, hlat, hlon]

lemma read_gps_line_quality_zero {line : String} (lat lon : ℚ)
    (h6 : (gga_parts line).getD 6 "" = "0") :
    read_gps_line line ≠ .fix lat lon := by
  intro hfix
  unfold read_gps_line at hfix
  rw [show (splitComma line.toList).map String.mk = gga_parts line from rfl] at hfix
  by_cases hg : gga_line line = true
  · rw [hg, if_pos rfl] at hfix
    by_cases hc : 7 ≤ (gga_parts line).length ∧ (gga_parts line).getD 6 "" ≠ ""
    · rw [if_pos hc, h6] at hfix
      simp [parseInt, digitsToNat, digitsVal] at hfix
    · rw [if_neg hc] at hfix
      exact StepResult.noConfusion hfix
  · simp [hg] at hfix

/-- C1: converting any decimal coordinate `x` to EXIF DMS rational tuples
with `to_dms` (seconds truncated to milliseconds) and reading it back with
the `degrees + minutes/60 + seconds/3600` formula recovers `|x|` within
`1e-3` degrees. -/
theorem C1_dms_roundtrip (x : ℚ) :
    abs (dms_rationals_to_decimal (to_dms x) - |x|) ≤ 1 / 1000 := by
  rw [to_dms_eq]
  unfold dms_rationals_to_decimal ratio_to_rat
  set a := |x| with ha
  set d : ℤ := ⌊a⌋ with hd
  set m : ℤ := ⌊(a - (d : ℚ)) * 60⌋ with hm
  set s : ℚ := ((a - (d : ℚ)) * 60 - (m : ℚ)) * 60 with hs
  have h1 : ((⌊s * 1000⌋ : ℤ) : ℚ) ≤ s * 1000 := Int.floor_le _
  have h2 : s * 1000 < (⌊s * 1000⌋ : ℤ) + 1 := Int.lt_floor_add_one _
  have heq : a = (d : ℚ) + (m : ℚ) / 60 + s / 3600 := by rw [hs]; ring
  rw [abs_le]
  push_cast
  constructor <;> nlinarith [h1, h2, heq]

/-- C5: hemisphere `S` (resp. `W`) yields exactly the negation of the value
obtained with `N` (resp. `E`), and `N`, `E` or the empty hemisphere leave
the value unchanged, both for NMEA parsing (`parse_nmea_coordinate`) and
for the EXIF DMS-to-decimal read-back. -/
theorem C5_hemisphere_sign :
    (∀ s : String,
      parse_nmea_coordinate s "S" = (parse_nmea_coordinate s "N").map (fun v => -v) ∧
      parse_nmea_coordinate s "W" = (parse_nmea_coordinate s "E").map (fun v => -v) ∧
      parse_nmea_coordinate s "N" = parse_nmea_coordinate s "" ∧
      parse_nmea_coordinate s "E" = parse_nmea_coordinate s "") ∧
    (∀ (lv lov : ℚ × ℚ × ℚ) (r : String),
      (read_existing_gps_from_image_convert lv lov "S" r).1 =
        -(read_existing_gps_from_image_convert lv lov "N" r).1 ∧
      (read_existing_gps_from_image_convert lv lov "N" r).1 =
        lv.1 + lv.2.1 / 60 + lv.2.2 / 3600 ∧
      (read_existing_gps_from_image_convert lv lov "" r).1 =
        lv.1 + lv.2.1 / 60 + lv.2.2 / 3600 ∧
      (read_existing_gps_from_image_convert lv lov r "W").2 =
        -(read_existing_gps_from_image_convert lv lov r "E").2 ∧
      (read_existing_gps_from_image_convert lv lov r "E").2 =
        lov.1 + lov.2.1 / 60 + lov.2.2 / 3600 ∧
      (read_existing_gps_from_image_convert lv lov r "").2 =
        lov.1 + lov.2.1 / 60 + lov.2.2 / 3600) := by
  constructor
  · intro s
    refine ⟨?_, ?_, ?_, ?_⟩ <;>
    · unfold parse_nmea_coordinate
      split
      · rfl
      · cases parseDecimal s <;> simp
  · intro lv lov r
    unfold read_existing_gps_from_image_convert
    refine ⟨?_, ?_, ?_, ?_, ?_, ?_⟩ <;> simp

/-- C10: the degree-field-width branch of `parse_nmea_coordinate` has no
effect — the function equals its branch-free refinement on every input —
and the empty coordinate string yields `none` rather than a number. -/
theorem C10_branch_irrelevant :
    (∀ s d, parse_nmea_coordinate s d = parse_nmea_coordinate_uniform s d) ∧
    (∀ d, parse_nmea_coordinate "" d = none) := by
  constructor
  · intro s d
    unfold parse_nmea_coordinate parse_nmea_coordinate_uniform
    split
    · rfl
    · cases parseDecimal s <;> simp
  · intro d
    unfold parse_nmea_coordinate
    simp

/-- C3 (amended): a GPGGA/GNGGA sentence whose fix-quality field (field 6)
is `"0"` never produces a fix; a sentence with fix-quality `"1"`, all four
coordinate/direction fields (fields 2–5) non-empty *and numerically
parseable* produces exactly one `Fixed` result whose coordinate is parsed
from those fields (a non-empty but unparsable coordinate field makes
`float()` raise, which the inner handler turns into a no-op — see the
counterexample). -/
theorem C3_fix_validation :
    (∀ (line : String) (lat lon : ℚ),
      (gga_parts line).getD 6 "" = "0" → read_gps_line line ≠ .fix lat lon) ∧
    (∀ (line : String) (rest : List String) (lat lon : ℚ),
      gga_line line = true →
      7 ≤ (gga_parts line).length →
      (gga_parts line).getD 6 "" = "1" →
      ((gga_parts line).getD 2 "" ≠ "" ∧ (gga_parts line).getD 4 "" ≠ "" ∧
        (gga_parts line).getD 3 "" ≠ "" ∧ (gga_parts line).getD 5 "" ≠ "") →
      parse_nmea_coordinate ((gga_parts line).getD 2 "")
        ((gga_parts line).getD 3 "") = some lat →
      parse_nmea_coordinate ((gga_parts line).getD 4 "")
        ((gga_parts line).getD 5 "") = some lon →
      read_gps (line :: rest) = ⟨.fixed lat lon, true⟩) := by
  constructor
  · intro line lat lon h6
    exact read_gps_line_quality_zero lat lon h6
  · intro line rest lat lon hgga h7 h6 hne hlat hlon
    rw [read_gps, show max_attempts = 49 + 1 from rfl, read_gps_loop_succ]
    rw [List.headD_cons]
    rw [read_gps_line_eq_fix hgga h7 (k := 1) (by rw [h6]; decide)
      (by rw [h6]; decide) one_pos hne hlat hlon]

/-- Witness for C3 at concrete sentences: a quality-`"0"` sentence yields
no fix, and a complete quality-`"1"` sentence yields exactly the fix
`(48.1173, 11.51666…)`. -/
theorem C3_fix_validation_witness :
    read_gps_line "$GPGGA,123519,4807.038,N,01131.000,E,0,08" ≠
      .fix (481173 / 10000) (691 / 60) ∧
    read_gps ["$GPGGA,123519,4807.038,N,01131.000,E,1,08"] =
      ⟨.fixed (481173 / 10000) (691 / 60), true⟩ := by
  constructor
  · exact C3_fix_validation.1 _ _ _ (by decide)
  · exact C3_fix_validation.2 _ [] _ _ (by decide) (by decide) (by decide)
      (by decide) (by decide) (by decide)

/-- C3 counterexample: fix-quality `"1"` and all four coordinate/direction
fields non-empty, yet no `Fixed` result — the latitude field `"ABC"` is
non-empty but not a number, so the attempt is a no-op and the acquisition
times out.  The claim's "non-empty fields suffice" is therefore false as
stated. -/
theorem C3_counterexample :
    read_gps_line "$GPGGA,123519,ABC,N,01131.000,E,1,08" = .noop ∧
    read_gps ["$GPGGA,123519,ABC,N,01131.000,E,1,08"] = ⟨.timedOut, true⟩ := by
  exact ⟨by decide, by decide⟩

lemma read_gps_line_noop_of_bad_coord {line : String}
    (h6 : (gga_parts line).getD 6 "" = "1")
    (hbad :
      parse_nmea_coordinate ((gga_parts line).getD 2 "")
        ((gga_parts line).getD 3 "") = none ∨
      parse_nmea_coordinate ((gga_parts line).getD 4 "")
        ((gga_parts line).getD 5 "") = none) :
    read_gps_line line = .noop := by
  unfold read_gps_line
  by_cases hg : gga_line line = true
  · rw [hg, if_pos rfl,
      show (splitComma line.toList).map String.mk = gga_parts line from rfl]
    by_cases hc : 7 ≤ (gga_parts line).length ∧ (gga_parts line).getD 6 "" ≠ ""
    · rw [if_pos hc, h6, show parseInt "1" = some (1 : ℤ) from rfl]
      split
      next heq => exact Option.noConfusion heq
      next q heq =>
        obtain rfl : q = (1 : ℤ) := by injection heq; omega
        rw [if_pos Int.one_pos]
        by_cases hne : (gga_parts line).getD 2 "" ≠ "" ∧
            (gga_parts line).getD 4 "" ≠ "" ∧
            (gga_parts line).getD 3 "" ≠ "" ∧ (gga_parts line).getD 5 "" ≠ ""
        · rw [if_pos hne]
          rcases hbad with hb | hb
          · rw [hb]
          · cases h1 : parse_nmea_coordinate ((gga_parts line).getD 2 "")
                ((gga_parts line).getD 3 "") <;>
              first
              | rfl
              | rw [hb]
        · rw [if_neg hne]
    · rw [if_neg hc]
  · simp [hg]

/-- C7 (amended): a *coordinate* parse failure on a recognized line is a
no-op for that attempt only — the attempt counter advances and polling
continues with the remaining lines.  A fix-quality field that is present
but not a valid integer, by contrast, raises outside the inner handler and
terminates the whole acquisition (see the counterexample). -/
theorem C7_coord_failure_noop :
    ∀ (line : String) (rest : List String) (n : ℕ),
      gga_line line = true →
      7 ≤ (gga_parts line).length →
      (gga_parts line).getD 6 "" = "1" →
      (parse_nmea_coordinate ((gga_parts line).getD 2 "")
          ((gga_parts line).getD 3 "") = none ∨
        parse_nmea_coordinate ((gga_parts line).getD 4 "")
          ((gga_parts line).getD 5 "") = none) →
      read_gps_loop (line :: rest) (n + 1) = read_gps_loop rest n := by
  intro line rest n _ _ h6 hbad
  rw [read_gps_loop_succ, List.headD_cons,
    read_gps_line_noop_of_bad_coord h6 hbad, List.tail_cons]

/-- Witness for C7: the unparsable latitude field `"ABC"` consumes one
attempt and polling continues with the remaining line. -/
theorem C7_coord_failure_noop_witness :
    read_gps_loop ["$GPGGA,123519,ABC,N,01131.000,E,1,08",
      "$GNGGA,123519,4807.038,N,01131.000,E,1,08"] 2 =
      read_gps_loop ["$GNGGA,123519,4807.038,N,01131.000,E,1,08"] 1 :=
  C7_coord_failure_noop _ _ 1 (by decide) (by decide) (by decide)
    (Or.inl (by decide))

/-- C7 counterexample: a fix-quality field `"Q"` (present but not a valid
integer) does *not* act as a no-op for that attempt — the acquisition
terminates at once (through the outer handler, port left open), never
reaching the next line, which carries a perfectly valid fix. -/
theorem C7_counterexample :
    read_gps ["$GPGGA,123519,4807.038,N,01131.000,E,Q,08",
      "$GPGGA,123519,4807.038,N,01131.000,E,1,08"] = ⟨.crashed, false⟩ ∧
    read_gps ["$GPGGA,123519,4807.038,N,01131.000,E,1,08"] =
      ⟨.fixed (481173 / 10000) (691 / 60), true⟩ := by
  exact ⟨by decide, by decide⟩

lemma read_gps_loop_closed (n : ℕ) :
    ∀ lines, (read_gps_loop lines n).outcome ≠ .crashed →
      (read_gps_loop lines n).serial_closed = true := by
  induction n with
  | zero => intro lines _; rfl
  | succ n ih =>
    intro lines h
    rw [read_gps_loop_succ] at h ⊢
    cases hstep : read_gps_line (lines.headD "") with
    | fix lat lon => rfl
    | noop => rw [hstep] at h; exact ih _ h
    | crash => rw [hstep] at h; exact absurd rfl h

/-- C8 (amended): the serial connection is released on the `Fixed` and
`TimedOut` terminal transitions — that is, on every terminal transition
except the unexpected-error path, which returns through the outer handler
without closing the port (see the counterexample). -/
theorem C8_close_on_non_crash :
    ∀ lines : List String, (read_gps lines).outcome ≠ .crashed →
      (read_gps lines).serial_closed = true := by
  intro lines h
  exact read_gps_loop_closed max_attempts lines h

/-- Witness for C8: an acquisition that times out has closed the port. -/
theorem C8_close_on_non_crash_witness :
    (read_gps []).outcome ≠ GpsOutcome.crashed ∧
      (read_gps []).serial_closed = true :=
  ⟨by decide, C8_close_on_non_crash [] (by decide)⟩

/-- C8 counterexample: a sentence whose fix-quality field is present but
not a valid integer terminates the acquisition through the outer handler
with the serial port still open — a terminal transition on which the
connection is not released, contradicting the claim as stated. -/
theorem C8_counterexample :
    read_gps ["$GNGGA,123519,4807.038,N,01131.000,E,Q,08"] =
      ⟨.crashed, false⟩ := by
  decide

lemma parse_nmea_eval {s : String} {q : ℚ} (hs : s ≠ "")
    (hq : parseDecimal s = some q) (dir : String) :
    parse_nmea_coordinate s dir =
      some (if dir = "S" ∨ dir = "W"
        then -((⌊q / 100⌋ : ℚ) + (q - 100 * ⌊q / 100⌋) / 60)
        else (⌊q / 100⌋ : ℚ) + (q - 100 * ⌊q / 100⌋) / 60) := by
  unfold parse_nmea_coordinate
  rw [if_neg hs, hq, Option.map_some']
  simp only [ite_self]

/-- C9 (amended): the conversion functions apply no range validation — an
out-of-range input is returned as an ordinary coordinate value, never as
an invalid-coordinate condition (see the counterexample).  The
`[-90, 90]` / `[-180, 180]` invariants hold exactly for well-formed NMEA
inputs: a parsed value `q` with `0 ≤ q`, minutes part `< 60`, and `q`
below `9000` (resp. `18000`) always yields, for any hemisphere, a
coordinate within `[-90, 90]` (resp. `[-180, 180]`). -/
theorem C9_range_on_wellformed (s dir : String) (q v : ℚ)
    (hq : parseDecimal s = some q) (h0 : 0 ≤ q)
    (hm : q - 100 * ⌊q / 100⌋ < 60)
    (hv : parse_nmea_coordinate s dir = some v) :
    (q < 9000 → -90 ≤ v ∧ v ≤ 90) ∧ (q < 18000 → -180 ≤ v ∧ v ≤ 180) := by
  have hs : s ≠ "" := by
    intro h
    rw [h, show parseDecimal "" = none from rfl] at hq
    exact Option.noConfusion hq
  rw [parse_nmea_eval hs hq dir] at hv
  obtain rfl := Option.some.inj hv
  have hD1 : (⌊q / 100⌋ : ℚ) ≤ q / 100 := Int.floor_le _
  have hD0 : (0 : ℚ) ≤ (⌊q / 100⌋ : ℚ) := by
    have h : (0 : ℤ) ≤ ⌊q / 100⌋ := Int.floor_nonneg.mpr (by linarith)
    exact_mod_cast h
  have hM0 : 0 ≤ q - 100 * ⌊q / 100⌋ := by linarith
  have key : ∀ b : ℤ, q < 100 * (b : ℚ) → (⌊q / 100⌋ : ℚ) ≤ (b : ℚ) - 1 := by
    intro b hb
    have h1 : ⌊q / 100⌋ < b := Int.floor_lt.mpr (by linarith)
    have h2 : ⌊q / 100⌋ ≤ b - 1 := by omega
    have h3 : ((⌊q / 100⌋ : ℤ) : ℚ) ≤ ((b - 1 : ℤ) : ℚ) := by exact_mod_cast h2
    push_cast at h3
    linarith
  constructor
  · intro h9
    have k := key 90 (by push_cast; linarith)
    push_cast at k
    split_ifs with hdir
    · constructor <;> linarith
    · constructor <;> linarith
  · intro h18
    have k := key 180 (by push_cast; linarith)
    push_cast at k
    split_ifs with hdir
    · constructor <;> linarith
    · constructor <;> linarith

/-- Witness for C9 at the well-formed input `"4807.038"`. -/
theorem C9_range_on_wellformed_witness :
    ((4807038 / 1000 : ℚ) < 9000 →
      -90 ≤ (481173 / 10000 : ℚ) ∧ (481173 / 10000 : ℚ) ≤ 90) ∧
    ((4807038 / 1000 : ℚ) < 18000 →
      -180 ≤ (481173 / 10000 : ℚ) ∧ (481173 / 10000 : ℚ) ≤ 180) :=
  C9_range_on_wellformed "4807.038" "N" (4807038 / 1000) (481173 / 10000)
    (by decide) (by decide) (by decide) (by decide)

/-- C9 counterexample: the NMEA latitude field `"9900.000"` decodes to
`99` degrees — outside `[-90, 90]` — and the acquisition returns it as an
ordinary in-range-looking fix rather than any invalid-coordinate
condition. -/
theorem C9_counterexample :
    read_gps ["$GPGGA,123519,9900.000,N,01131.000,E,1,08"] =
      ⟨.fixed 99 (691 / 60), true⟩ ∧ ¬((99 : ℚ) ≤ 90) := by
  exact ⟨by decide, by decide⟩

lemma incr_count_sum (counts : List (String × ℕ)) (key : String) :
    ((incr_count counts key).map Prod.snd).sum = (counts.map Prod.snd).sum + 1 := by
  induction counts with
  | nil => rfl
  | cons kv rest ih =>
    obtain ⟨k, v⟩ := kv
    by_cases h : k = key <;> simp [incr_count, h, ih] <;> omega

lemma tally_detections_sum (class_ids : List ℕ) (hn : Option String) :
    ((tally_detections class_ids hn).map Prod.snd).sum = class_ids.length := by
  suffices h : ∀ acc : List (String × ℕ),
      ((class_ids.foldl
          (fun counts ci => incr_count counts (detection_class_name hn ci)) acc).map
        Prod.snd).sum = (acc.map Prod.snd).sum + class_ids.length by
    simpa [tally_detections] using h []
  induction class_ids with
  | nil => intro acc; simp
  | cons c cs ih =>
    intro acc
    simp only [List.foldl_cons, List.length_cons]
    rw [ih (incr_count acc (detection_class_name hn c)), incr_count_sum]
    omega

/-- C2: every `DetectionRecord` produced by `process_single_image` has
`total_detections` equal to the sum of the values of `detection_counts`,
for every detection list the inference collaborator returns (including the
empty one) and whether or not a head class name is available. -/
theorem C2_total_eq_counts_sum (image_path : String) (gps : Option (ℚ × ℚ))
    (loaded : Bool) (class_ids : List ℕ) (head_class_name : Option String)
    (ts : String) (rec : DetectionRecord)
    (h : process_single_image image_path gps loaded class_ids head_class_name ts =
      some rec) :
    rec.total_detections = (rec.detection_counts.map Prod.snd).sum := by
  rcases gps with _ | ⟨lat, lon⟩
  · exact Option.noConfusion h
  · simp only [process_single_image] at h
    split at h
    · exact Option.noConfusion h
    · obtain rfl := Option.some.inj h
      cases class_ids with
      | nil => rfl
      | cons c cs =>
        simp only []
        rw [if_pos (by simp)]
        rw [tally_detections_sum]

/-- Witness for C2: three detections over two classes with no readable
class name. -/
theorem C2_total_eq_counts_sum_witness :
    process_single_image "img.jpg" (some (1, 2)) true [0, 1, 0] none "ts" =
      some ⟨"img.jpg", 1, 2, 3, [("class_0", 2), ("class_1", 1)], "ts"⟩ ∧
    (⟨"img.jpg", 1, 2, 3, [("class_0", 2), ("class_1", 1)], "ts"⟩ :
        DetectionRecord).total_detections =
      (((⟨"img.jpg", 1, 2, 3, [("class_0", 2), ("class_1", 1)], "ts"⟩ :
        DetectionRecord)).detection_counts.map Prod.snd).sum :=
  ⟨by decide,
    C2_total_eq_counts_sum "img.jpg" (some (1, 2)) true [0, 1, 0] none "ts" _
      (by decide)⟩

lemma create_basic_heatmap_eq (records : List DetectionRecord) :
    create_basic_heatmap records =
      if records = [] then none
      else
        some
          (((records.map (·.latitude)).sum / ((records.map (·.latitude)).length : ℚ),
            (records.map (·.longitude)).sum / ((records.map (·.longitude)).length : ℚ)),
          records.map fun item =>
            (item.latitude, item.longitude, max 1 item.total_detections)) := rfl

lemma create_class_specific_heatmap_eq (records : List DetectionRecord)
    (tc : Option String) :
    create_class_specific_heatmap records tc =
      if records = [] then none
      else
        some
          (((records.map (·.latitude)).sum / ((records.map (·.latitude)).length : ℚ),
            (records.map (·.longitude)).sum / ((records.map (·.longitude)).length : ℚ)),
          records.filterMap fun item =>
            if 0 < class_intensity tc item then
              some (item.latitude, item.longitude, class_intensity tc item)
            else none) := rfl

lemma filterMap_dict_get_eq (records : List DetectionRecord) (t : String) :
    (records.filterMap fun r =>
        if 0 < dict_get r.detection_counts t then
          some (r.latitude, r.longitude, dict_get r.detection_counts t)
        else none) =
      (records.filter fun r => 0 < dict_get r.detection_counts t).map
        fun r => (r.latitude, r.longitude, dict_get r.detection_counts t) := by
  induction records with
  | nil => rfl
  | cons r rs ih =>
    by_cases hr : 0 < dict_get r.detection_counts t <;>
      simp [List.filterMap_cons, List.filter_cons, hr, ih]

lemma class_intensity_some {t : String} (ht : t ≠ "") (item : DetectionRecord) :
    class_intensity (some t) item = dict_get item.detection_counts t := by
  simp [class_intensity, str_truthy, ht]

/-- C6: for a non-empty record collection, the basic (unfiltered) heat
list has one point per record with intensity `max 1 total_detections`
(hence `≥ 1`, every record included), while the class-filtered heat list
contains exactly the records whose count for the target class is positive,
with intensity equal to that count. -/
theorem C6_heat_point_lists (records : List DetectionRecord)
    (hne : records ≠ []) (t : String) (ht : t ≠ "") :
    (∃ c, create_basic_heatmap records =
      some (c, records.map fun item =>
        (item.latitude, item.longitude, max 1 item.total_detections))) ∧
    (∀ p ∈ records.map (fun item : DetectionRecord =>
        (item.latitude, item.longitude, max 1 item.total_detections)),
      1 ≤ p.2.2) ∧
    (∃ c, create_class_specific_heatmap records (some t) =
      some (c, (records.filter fun r => 0 < dict_get r.detection_counts t).map
        fun r => (r.latitude, r.longitude, dict_get r.detection_counts t))) := by
  refine ⟨?_, ?_, ?_⟩
  · exact ⟨_, by rw [create_basic_heatmap_eq, if_neg hne]⟩
  · intro p hp
    simp only [List.mem_map] at hp
    obtain ⟨item, _, rfl⟩ := hp
    exact le_max_left _ _
  · refine ⟨((records.map (·.latitude)).sum / ((records.map (·.latitude)).length : ℚ),
      (records.map (·.longitude)).sum / ((records.map (·.longitude)).length : ℚ)), ?_⟩
    rw [create_class_specific_heatmap_eq, if_neg hne]
    simp only [class_intensity_some ht]
    rw [filterMap_dict_get_eq]

/-- Witness for C6 on a one-record collection. -/
theorem C6_heat_point_lists_witness :
    (∃ c, create_basic_heatmap [c6rec] =
      some (c, [c6rec].map fun item =>
        (item.latitude, item.longitude, max 1 item.total_detections))) ∧
    (∀ p ∈ [c6rec].map (fun item : DetectionRecord =>
        (item.latitude, item.longitude, max 1 item.total_detections)),
      1 ≤ p.2.2) ∧
    (∃ c, create_class_specific_heatmap [c6rec] (some "a") =
      some (c, ([c6rec].filter fun r => 0 < dict_get r.detection_counts "a").map
        fun r => (r.latitude, r.longitude, dict_get r.detection_counts "a"))) :=
  C6_heat_point_lists [c6rec] (by decide) "a" (by decide)
